import Mathlib

/-
Shallow embedding of the provider-normalization core of the go-ai-sdk
repository: the message model and configuration (types.go), the client
dispatcher (client.go), the OpenAI adapter response handling
(providers/openai/openai.go) and the Anthropic adapter response handling.

Go strings are modelled as Lean String, except where byte-index arithmetic
matters (the fence-stripping code), where they are List Char; the inputs the
code handles there are ASCII, so the two agree. Go float64 carries only
stored-and-copied values in this code (no arithmetic), so it is modelled by
Rat. Go `int` is modelled by Int. A nil Go slice is the empty list, except in
the heap model below where slice identity matters.
-/

/- ===== Message model, src/types.go ===== -/

/-- MessageRole from types.go: the four role constants. -/
inductive MessageRole where
  | system
  | user
  | assistant
  | tool
deriving DecidableEq

/-- The Go string value of a MessageRole constant (RoleSystem = "system", ...). -/
def roleString : MessageRole → String
  | .system => "system"
  | .user => "user"
  | .assistant => "assistant"
  | .tool => "tool"

/-- Tool from types.go: name plus raw JSON arguments (kept as an opaque string). -/
structure Tool where
  name : String
  arguments : String
deriving DecidableEq

/-- ToolCall from types.go. -/
structure ToolCall where
  id : String
  type : String
  tool : Tool
deriving DecidableEq

/-- Message from types.go. -/
structure Message where
  role : MessageRole
  content : String
  toolCalls : List ToolCall
  toolCallID : String
deriving DecidableEq

/-- FunctionDefinition from types.go; parameters is an opaque JSON-schema string. -/
structure FunctionDefinition where
  name : String
  description : String
  parameters : String
deriving DecidableEq

/-- Config from types.go. Provider is the provider-id string. -/
structure Config where
  provider : String
  model : String
  messages : List Message
  maxTokens : Int
  temperature : Rat
  tools : List FunctionDefinition
deriving DecidableEq

/-- Option from types.go (renamed to avoid the Lean builtin): a function that
modifies a Config. The Go closures mutate a config in place; here they map the
draft config to the updated one. -/
def ConfigOption : Type := Config → Config

/-- WithProvider from types.go. -/
def withProvider (p : String) : ConfigOption := fun c => { c with provider := p }

/-- WithModel from types.go. -/
def withModel (m : String) : ConfigOption := fun c => { c with model := m }

/-- WithMessages from types.go. -/
def withMessages (ms : List Message) : ConfigOption := fun c => { c with messages := ms }

/-- WithMaxTokens from types.go. -/
def withMaxTokens (n : Int) : ConfigOption := fun c => { c with maxTokens := n }

/-- WithTemperature from types.go. -/
def withTemperature (t : Rat) : ConfigOption := fun c => { c with temperature := t }

/-- WithTools from types.go. -/
def withTools (ts : List FunctionDefinition) : ConfigOption := fun c => { c with tools := ts }

/- ===== Errors (client.go and the two provider packages) ===== -/

/-- The error values the embedded code can return. modelNotSpecified and
providerNotSupported are from client.go (the wrap `%w: %s` of
ErrProviderNotSupported carries the requested id, modelled by the constructor
argument). noToolsSpecified is the descriptive "no tools specified" error of
the tool-call dispatch. errEmptyAPIKey and errInvalidResponse are the
package-level errors of the openai and anthropic provider packages, tagged by
provider name to keep the error values of the two packages distinct.
decodeFailure is the `failed to unmarshal JSON response: %w: %s` wrap carrying
the underlying parse error and the candidate string. -/
inductive GoErr where
  | modelNotSpecified
  | providerNotSupported (id : String)
  | noToolsSpecified
  | errEmptyAPIKey (provider : String)
  | errInvalidResponse (provider : String)
  | decodeFailure (parseErr : String) (candidate : List Char)
deriving DecidableEq

/- ===== Client and dispatch, src/client.go ===== -/

/-- LLMProvider interface from types.go. GetObject in Go returns only an
error and fills the target pointer; the Unit success value models the nil
error return. -/
structure LLMProvider where
  getText : Config → Except GoErr String
  getObject : Config → Except GoErr Unit
  getToolCalls : Config → Except GoErr (List ToolCall)

/-- Client from client.go: a provider registry (a Go map, modelled as an
association list) and base defaults. -/
structure Client where
  providers : List (String × LLMProvider)
  defaults : Config

/-- Lookup in the provider registry map. -/
def lookupProvider : List (String × LLMProvider) → String → Option LLMProvider
  | [], _ => none
  | (k, v) :: rest, id => if k = id then some v else lookupProvider rest id

/-- NewClient from client.go: defaults are Temperature 0.7 and MaxTokens 1000,
every other field the zero value, then the construction options are applied. -/
def NewClient (options : List ConfigOption) : Client :=
  { providers := []
    defaults := options.foldl (fun c opt => opt c)
      { provider := "", model := "", messages := [], maxTokens := 1000,
        temperature := 7/10, tools := [] } }

/-- mergeConfig from client.go. The Go code copies Provider, Model, MaxTokens
and Temperature from the defaults, copies Messages by value when non-empty
(value-wise the same list; see mergeConfigH for the aliasing-accurate model),
leaves Tools at its zero value (the Tools of the defaults are never copied),
and then applies the options in order. -/
def mergeConfig (defaults : Config) (options : List ConfigOption) : Config :=
  let config : Config :=
    { provider := defaults.provider
      model := defaults.model
      messages := defaults.messages
      maxTokens := defaults.maxTokens
      temperature := defaults.temperature
      tools := [] }
  options.foldl (fun c opt => opt c) config

/-- Client.GetText from client.go: merge, check model, look up provider,
delegate. -/
def Client.GetText (c : Client) (options : List ConfigOption) : Except GoErr String :=
  let config := mergeConfig c.defaults options
  if config.model = "" then .error .modelNotSpecified
  else
    match lookupProvider c.providers config.provider with
    | none => .error (.providerNotSupported config.provider)
    | some p => p.getText config

/-- Client.GetObject from client.go: merge, check model, look up provider,
delegate. -/
def Client.GetObject (c : Client) (options : List ConfigOption) : Except GoErr Unit :=
  let config := mergeConfig c.defaults options
  if config.model = "" then .error .modelNotSpecified
  else
    match lookupProvider c.providers config.provider with
    | none => .error (.providerNotSupported config.provider)
    | some p => p.getObject config

/-- Modelled from the spec: Client.GetToolCalls is absent from src (only
client_test.go exercises it). Following the dispatcher steps of the spec,
identical to GetText and GetObject except for the final capability: merge the
configuration, fail with ModelNotSpecified on an empty model, look up the
provider (ProviderNotSupported carrying the id when absent), then fail fast
with the descriptive NoToolsSpecified error when the effective Tools set is
empty, and otherwise invoke the provider capability. -/
def Client.GetToolCalls (c : Client) (options : List ConfigOption) :
    Except GoErr (List ToolCall) :=
  let config := mergeConfig c.defaults options
  if config.model = "" then .error .modelNotSpecified
  else
    match lookupProvider c.providers config.provider with
    | none => .error (.providerNotSupported config.provider)
    | some p =>
      if config.tools = [] then .error .noToolsSpecified
      else p.getToolCalls config

/- ===== Fence stripping and JSON decode phase (openai.go GetObject; the
anthropic GetObject contains the identical stripping and decode code) ===== -/

/-- ASCII behavior of the Go strings.TrimSpace space test (the asciiSpace
table of the Go standard library); the candidates this repository strips are
ASCII. -/
def goIsSpace (c : Char) : Bool :=
  c = ' ' || c = '\t' || c = '\n' || c = '\x0b' || c = '\x0c' || c = '\r'

/-- strings.TrimSpace on the character list model. -/
def goTrimSpace (s : List Char) : List Char :=
  ((s.dropWhile goIsSpace).reverse.dropWhile goIsSpace).reverse

/-- The plain fence marker the stripping code searches for. -/
def fenceMarker : List Char := ("```").data

/-- The json-tagged fence opener. -/
def fenceMarkerJson : List Char := ("```json").data

/-- strings.LastIndex: the greatest index at which pat occurs in s, none when
it does not occur (Go returns -1 there; the callers test for that). -/
def lastIndexOf (pat s : List Char) : Option Nat :=
  ((List.range (s.length + 1)).filter (fun i => List.isPrefixOf pat (s.drop i))).getLast?

/-- The fence-stripping block shared verbatim by the GetObject of the openai
and anthropic adapters: trim space; when the text starts with a json-tagged or
plain fence opener, drop the opener and keep only the text before the last
fence marker (when one exists); trim space again. -/
def extractJSON (raw : List Char) : List Char :=
  let s1 := goTrimSpace raw
  let s2 :=
    if List.isPrefixOf fenceMarkerJson s1 then
      let t := s1.drop fenceMarkerJson.length
      match lastIndexOf fenceMarker t with
      | some idx => t.take idx
      | none => t
    else if List.isPrefixOf fenceMarker s1 then
      let t := s1.drop fenceMarker.length
      match lastIndexOf fenceMarker t with
      | some idx => t.take idx
      | none => t
    else s1
  goTrimSpace s2

/-- The decode tail of GetObject in both adapters: strip fences from the raw
text reply, hand the candidate to the JSON decoder (json.Unmarshal against the
target shape is external to this repository, so the decoder is a parameter),
and on failure return the decodeFailure wrap carrying the underlying parse
error and the candidate string. -/
def decodeObject {α : Type} (decode : List Char → Except String α)
    (textResp : List Char) : Except GoErr α :=
  let jsonStr := extractJSON textResp
  match decode jsonStr with
  | .error e => .error (.decodeFailure e jsonStr)
  | .ok v => .ok v

/- ===== OpenAI adapter response handling, providers/openai/openai.go ===== -/

/-- openai.Message: the wire message of the OpenAI chat API. -/
structure OAIMessage where
  role : String
  content : String
deriving DecidableEq

/-- openai.Choice. -/
structure Choice where
  index : Int
  message : OAIMessage
  finishReason : String
deriving DecidableEq

/-- openai.Error. -/
structure OAIError where
  message : String
  type : String
  param : String
  code : String
deriving DecidableEq

/-- openai.Response. -/
structure OAIResponse where
  id : String
  object : String
  created : Int
  choices : List Choice
  error : Option OAIError
deriving DecidableEq

/-- The success-status content extraction at the end of the openai GetText:
with no choices or an empty first content, return ErrInvalidResponse;
otherwise return the first content. -/
def openaiChoicesContent (resp : OAIResponse) : Except GoErr String :=
  match resp.choices with
  | [] => .error (.errInvalidResponse ("openai"))
  | c :: _ =>
    if c.message.content = "" then .error (.errInvalidResponse ("openai"))
    else .ok c.message.content

/-- The Sprintf-built system-message content the openai GetObject creates,
parameterized by the %T name of the target. -/
def jsonSystemContent (targetType : String) : String :=
  ("You are a helpful assistant that responds with JSON matching the ")
    ++ targetType
    ++ (" type. Your response should be valid JSON and nothing else.")

/-- The system Message the openai GetObject creates. -/
def jsonSystemMessage (targetType : String) : Message :=
  { role := .system, content := jsonSystemContent targetType,
    toolCalls := [], toolCallID := "" }

/-- The hasSystemMsg loop of the openai GetObject: scan the messages and stop
at the first system-role entry. -/
def hasSystemMsg : List Message → Bool
  | [] => false
  | m :: rest => if m.role = .system then true else hasSystemMsg rest

/-- The message preparation of the openai GetObject: when the configured
messages already contain a system-role message they are passed to GetText
unchanged; otherwise the JSON-instruction system message is prepended. -/
def openaiObjectMessages (targetType : String) (msgs : List Message) : List Message :=
  if hasSystemMsg msgs then msgs else jsonSystemMessage targetType :: msgs

/- ===== Anthropic adapter, src/unnamed/part_002 ===== -/

/-- anthropic.Message: the wire message of the Anthropic messages API. -/
structure AnthMessage where
  role : String
  content : String
deriving DecidableEq

/-- anthropic.Content. -/
structure AnthContent where
  type : String
  text : String
deriving DecidableEq

/-- anthropic.Error. -/
structure AnthError where
  type : String
  message : String
deriving DecidableEq

/-- anthropic.Response. -/
structure AnthResponse where
  id : String
  type : String
  role : String
  content : List AnthContent
  model : String
  stopReason : String
  error : Option AnthError
deriving DecidableEq

/-- anthropic.Request: the serialized request body, with the distinct
top-level system parameter. -/
structure AnthRequest where
  model : String
  messages : List AnthMessage
  maxTokens : Int
  temperature : Rat
  system : String
deriving DecidableEq

/-- The role mapping inside the anthropic convertMessages loop: start from the
string value of the role, then the explicit assistant and user cases (the Go
code re-assigns the same strings there). -/
def anthRole (r : MessageRole) : String :=
  let role := roleString r
  if r = .assistant then "assistant"
  else if r = .user then "user"
  else role

/-- One iteration of the anthropic convertMessages loop over the accumulated
(messages, systemMessage) pair: a system-role message overwrites the system
accumulator and is skipped; any other message is appended with its mapped
role. -/
def convertMessagesStep (acc : List AnthMessage × String) (m : Message) :
    List AnthMessage × String :=
  if m.role = .system then (acc.1, m.content)
  else (acc.1 ++ [{ role := anthRole m.role, content := m.content }], acc.2)

/-- convertMessages of the anthropic adapter: fold the loop over the input
starting from no messages and an empty system string, returning the converted
messages and the extracted system message. -/
def convertMessages (msgs : List Message) : List AnthMessage × String :=
  msgs.foldl convertMessagesStep ([], "")

/-- The request body the anthropic GetText builds: the converted messages, the
extracted system message in the top-level system parameter, and the model and
sampling fields copied from the config. -/
def anthropicBuildRequest (config : Config) : AnthRequest :=
  let p := convertMessages config.messages
  { model := config.model, messages := p.1, maxTokens := config.maxTokens,
    temperature := config.temperature, system := p.2 }

/-- The success-status content extraction at the end of the anthropic GetText:
with no content blocks or an empty first text, return ErrInvalidResponse;
otherwise return the first text. -/
def anthropicContentText (resp : AnthResponse) : Except GoErr String :=
  match resp.content with
  | [] => .error (.errInvalidResponse ("anthropic"))
  | c :: _ =>
    if c.text = "" then .error (.errInvalidResponse ("anthropic"))
    else .ok c.text

/- ===== Heap-accurate model of mergeConfig for the slice-aliasing claim ===== -/

/-- Config with Go slice headers made explicit for the Messages field: a slice
value is nil (none) or an address into a heap of message arrays. The Tools
field keeps the same representation; mergeConfig always leaves it nil. -/
structure ConfigH where
  provider : String
  model : String
  messagesRef : Option Nat
  maxTokens : Int
  temperature : Rat
  toolsRef : Option Nat
deriving DecidableEq

/-- Dereference a slice header against the heap; a nil slice and a dangling
address both read as the empty array. -/
def derefMsgs (heap : List (List Message)) : Option Nat → List Message
  | none => []
  | some a => (heap.get? a).getD []

/-- mergeConfig from client.go with slice allocation made explicit: the
scalar fields are copied; when the defaults hold a non-empty Messages slice a
fresh array is allocated at the end of the heap (the make-and-copy of the Go
code) and the new config points at it, otherwise the new Messages slice is
nil; Tools stays at its zero value nil; then the options are applied to the
draft. Returns the effective config and the extended heap. -/
def mergeConfigH (heap : List (List Message)) (defaults : ConfigH)
    (options : List (ConfigH → ConfigH)) : ConfigH × List (List Message) :=
  let base := derefMsgs heap defaults.messagesRef
  let (msgsRef, heap2) :=
    if 0 < base.length then (some heap.length, heap ++ [base])
    else ((none : Option Nat), heap)
  let config : ConfigH :=
    { provider := defaults.provider
      model := defaults.model
      messagesRef := msgsRef
      maxTokens := defaults.maxTokens
      temperature := defaults.temperature
      toolsRef := none }
  (options.foldl (fun c opt => opt c) config, heap2)

/- ===== Concrete fixtures used by counterexamples and witnesses ===== -/

/-- A base Config with a non-empty Tools set, for the merge counterexample. -/
def c3base : Config :=
  { provider := ("openai"), model := ("gpt-4"), messages := [],
    maxTokens := 1000, temperature := 7/10,
    tools := [{ name := ("get_weather"),
                description := ("Gets weather information"),
                parameters := ("") }] }

/-- A one-cell heap holding a non-empty message array. -/
def c3heap : List (List Message) :=
  [[{ role := .user, content := ("hi"), toolCalls := [], toolCallID := "" }]]

/-- Heap-model defaults whose Messages slice points at the c3heap cell. -/
def c3defaults : ConfigH :=
  { provider := ("openai"), model := ("gpt-4"), messagesRef := some 0,
    maxTokens := 1000, temperature := 7/10, toolsRef := none }

/- ===== Theorems ===== -/

/-- C1: for every client and option list whose merged effective configuration
has an empty model, each dispatch entry point (GetText, GetObject,
GetToolCalls) returns the ModelNotSpecified error. The equality holds for
every registry content and every provider implementation, so no registered
provider implementation is invoked. -/
theorem dispatch_empty_model_fails (c : Client) (opts : List ConfigOption)
    (h : (mergeConfig c.defaults opts).model = "") :
    c.GetText opts = .error .modelNotSpecified
      ∧ c.GetObject opts = .error .modelNotSpecified
      ∧ c.GetToolCalls opts = .error .modelNotSpecified := by
  refine ⟨?_, ?_, ?_⟩ <;>
    simp [Client.GetText, Client.GetObject, Client.GetToolCalls, h]

/-- Witness for C1 at the fresh client, whose default model is empty. -/
theorem dispatch_empty_model_fails_witness :
    (NewClient []).GetText [] = .error .modelNotSpecified
      ∧ (NewClient []).GetObject [] = .error .modelNotSpecified
      ∧ (NewClient []).GetToolCalls [] = .error .modelNotSpecified :=
  dispatch_empty_model_fails (NewClient []) [] rfl

/-- C2: for every client and option list whose merged effective configuration
has a non-empty model and names a provider id absent from the registry, each
dispatch entry point fails with the ProviderNotSupported error carrying the
exact requested provider id; the result does not depend on any registered
implementation, so none is invoked. -/
theorem dispatch_unknown_provider_fails (c : Client) (opts : List ConfigOption)
    (hm : (mergeConfig c.defaults opts).model ≠ "")
    (hp : lookupProvider c.providers (mergeConfig c.defaults opts).provider = none) :
    c.GetText opts
        = .error (.providerNotSupported (mergeConfig c.defaults opts).provider)
      ∧ c.GetObject opts
        = .error (.providerNotSupported (mergeConfig c.defaults opts).provider)
      ∧ c.GetToolCalls opts
        = .error (.providerNotSupported (mergeConfig c.defaults opts).provider) := by
  refine ⟨?_, ?_, ?_⟩ <;>
    simp [Client.GetText, Client.GetObject, Client.GetToolCalls, hm, hp]

/-- Witness for C2: an unregistered provider id with a model set. -/
theorem dispatch_unknown_provider_fails_witness :
    (NewClient []).GetText [withProvider ("unsupported"), withModel ("test-model")]
        = .error (.providerNotSupported ("unsupported"))
      ∧ (NewClient []).GetObject [withProvider ("unsupported"), withModel ("test-model")]
        = .error (.providerNotSupported ("unsupported"))
      ∧ (NewClient []).GetToolCalls [withProvider ("unsupported"), withModel ("test-model")]
        = .error (.providerNotSupported ("unsupported")) :=
  dispatch_unknown_provider_fails (NewClient [])
    [withProvider ("unsupported"), withModel ("test-model")] (by decide) rfl

/-- C7: override ordering is last-write-wins. For every base and every
preceding override sequence, a trailing withTemperature override determines
the effective temperature; in particular merging the two overrides
withTemperature 0.2 and withTemperature 0.9 yields effective temperature
0.9 for every base. -/
theorem mergeConfig_temperature_last_wins :
    (∀ (base : Config) (opts : List ConfigOption) (t : Rat),
        (mergeConfig base (opts ++ [withTemperature t])).temperature = t)
      ∧ ∀ base : Config,
          (mergeConfig base [withTemperature (2/10), withTemperature (9/10)]).temperature
            = 9/10 := by
  constructor
  · intro base opts t
    simp [mergeConfig, withTemperature, List.foldl_append]
  · intro base
    rfl

/-- C3 counterexample: the claim says merging with zero overrides yields an
effective configuration equal to the base in every field including tools, but
mergeConfig never copies the Tools of the base, so for a base with a non-empty
Tools set the merged configuration differs from the base. -/
theorem mergeConfig_zero_overrides_drops_tools :
    mergeConfig c3base [] ≠ c3base := by
  intro h
  have ht := congrArg Config.tools h
  simp [mergeConfig, c3base] at ht

/-- C3 amended: merging with zero overrides preserves provider, model,
max-tokens and temperature, preserves the value of the Messages sequence, and
copies a non-empty Messages slice by value into a fresh heap cell (the
resulting slice never aliases the base slice); the Tools field of the base is
dropped (the effective Tools slice is nil). -/
theorem mergeConfigH_zero_overrides (heap : List (List Message)) (d : ConfigH) :
    ((mergeConfigH heap d []).1).provider = d.provider
      ∧ ((mergeConfigH heap d []).1).model = d.model
      ∧ ((mergeConfigH heap d []).1).maxTokens = d.maxTokens
      ∧ ((mergeConfigH heap d []).1).temperature = d.temperature
      ∧ derefMsgs (mergeConfigH heap d []).2 ((mergeConfigH heap d []).1).messagesRef
          = derefMsgs heap d.messagesRef
      ∧ ((mergeConfigH heap d []).1).toolsRef = none
      ∧ (derefMsgs heap d.messagesRef ≠ [] →
          ((mergeConfigH heap d []).1).messagesRef ≠ d.messagesRef) := by
  by_cases hb : 0 < (derefMsgs heap d.messagesRef).length
  · refine ⟨?_, ?_, ?_, ?_, ?_, ?_, ?_⟩ <;>
      simp only [mergeConfigH, hb, if_pos, List.foldl_nil]
    · simp [derefMsgs, List.getElem?_concat_length]
    · intro _
      cases href : d.messagesRef with
      | none => simp
      | some a =>
        have ha : a < heap.length := by
          by_contra hge
          have hnone : heap[a]? = none :=
            List.getElem?_eq_none (Nat.le_of_not_lt hge)
          rw [href] at hb
          simp [derefMsgs, hnone] at hb
        simp only [ne_eq, Option.some.injEq]
        omega
  · have hbase : derefMsgs heap d.messagesRef = [] :=
      List.length_eq_zero.mp (Nat.eq_zero_of_not_pos hb)
    refine ⟨?_, ?_, ?_, ?_, ?_, ?_, ?_⟩ <;>
      simp only [mergeConfigH, hb, if_neg, List.foldl_nil]
    · simp only [if_false]
      exact hbase.symm
    · intro hne
      exact absurd hbase hne

/-- Witness for C3 amended: on the concrete heap and defaults, the merged
Messages slice is a fresh cell with the same contents. -/
theorem mergeConfigH_zero_overrides_witness :
    ((mergeConfigH c3heap c3defaults []).1).messagesRef ≠ c3defaults.messagesRef
      ∧ derefMsgs (mergeConfigH c3heap c3defaults []).2
            ((mergeConfigH c3heap c3defaults []).1).messagesRef
          = derefMsgs c3heap c3defaults.messagesRef := by
  have h := mergeConfigH_zero_overrides c3heap c3defaults
  exact ⟨h.2.2.2.2.2.2 (by decide), h.2.2.2.2.1⟩

/-- A stub provider implementation, like the mocks in the tests. -/
def stubProvider : LLMProvider :=
  { getText := fun _ => .ok ("Hello, world!")
    getObject := fun _ => .ok ()
    getToolCalls := fun _ => .ok [] }

/-- A client with the stub registered under the openai id. -/
def clientWithStub : Client :=
  { providers := [(("openai"), stubProvider)], defaults := (NewClient []).defaults }

/-- C4 counterexample: the claim quantifies over every effective configuration
with an empty Tools set, but when the model is also empty the dispatch fails
with ModelNotSpecified, not NoToolsSpecified: the model check precedes the
tools check. -/
theorem getToolCalls_empty_tools_counterexample :
    (mergeConfig (NewClient []).defaults []).tools = []
      ∧ (NewClient []).GetToolCalls [] ≠ .error .noToolsSpecified
      ∧ (NewClient []).GetToolCalls [] = .error .modelNotSpecified := by
  refine ⟨rfl, ?_, rfl⟩
  have h : (NewClient []).GetToolCalls [] = .error .modelNotSpecified := rfl
  rw [h]
  simp

/-- C4 amended: for every effective configuration with a non-empty model, a
registered provider id and an empty Tools set, GetToolCalls fails with the
NoToolsSpecified error; the conclusion holds for every implementation the
registry maps the id to, so no provider capability (and hence no network
call) is invoked. -/
theorem getToolCalls_empty_tools_fails (c : Client) (opts : List ConfigOption)
    (hm : (mergeConfig c.defaults opts).model ≠ "")
    (p : LLMProvider)
    (hp : lookupProvider c.providers (mergeConfig c.defaults opts).provider = some p)
    (ht : (mergeConfig c.defaults opts).tools = []) :
    c.GetToolCalls opts = .error .noToolsSpecified := by
  simp [Client.GetToolCalls, hm, hp, ht]

/-- Witness for C4 amended: a registered stub provider, a model, no tools. -/
theorem getToolCalls_empty_tools_fails_witness :
    clientWithStub.GetToolCalls [withProvider ("openai"), withModel ("test-model")]
      = .error .noToolsSpecified :=
  getToolCalls_empty_tools_fails clientWithStub
    [withProvider ("openai"), withModel ("test-model")] (by decide) stubProvider rfl rfl

/-- The fenced form of the round-trip payload. -/
def fencedSample : List Char := ("```json\n\x7b\"a\":1\x7d\n```").data

/-- The bare form of the round-trip payload. -/
def bareSample : List Char := ("\x7b\"a\":1\x7d").data

/-- C5: fence-stripping round trip. Extraction maps the fenced input and the
bare input of the same JSON payload to the identical candidate string (the
bare payload), so extraction-plus-decode yields the identical value for every
decoder aimed at any target shape. -/
theorem extractJSON_fence_roundtrip :
    extractJSON fencedSample = bareSample
      ∧ extractJSON bareSample = bareSample
      ∧ ∀ (α : Type) (decode : List Char → Except String α),
          decode (extractJSON fencedSample) = decode (extractJSON bareSample) := by
  have h1 : extractJSON fencedSample = bareSample := by decide
  have h2 : extractJSON bareSample = bareSample := by decide
  exact ⟨h1, h2, fun α decode => by rw [h1, h2]⟩

/-- C6: for every raw reply whose stripped candidate fails to decode, the
GetObject decode phase returns the decodeFailure error carrying both the
underlying parse error and exactly the stripped candidate string. -/
theorem decodeObject_decode_failure {α : Type}
    (decode : List Char → Except String α) (raw : List Char) (e : String)
    (h : decode (extractJSON raw) = .error e) :
    decodeObject decode raw = .error (.decodeFailure e (extractJSON raw)) := by
  simp [decodeObject, h]

/-- Witness for C6: a fenced non-JSON reply; the attached candidate is the
stripped string, not the raw reply. -/
theorem decodeObject_decode_failure_witness :
    decodeObject (fun _ => (.error ("invalid character") : Except String Nat))
        (("```\nnot json\n```").data)
      = .error (.decodeFailure ("invalid character") (("not json").data)) := by
  have hx : extractJSON (("```\nnot json\n```").data) = ("not json").data := by decide
  have h := decodeObject_decode_failure
    (fun _ => (.error ("invalid character") : Except String Nat))
    (("```\nnot json\n```").data) ("invalid character") rfl
  rw [h, hx]

/-- C8: on the success-status path, an upstream reply with no choices (openai)
or no content blocks (anthropic), or with an empty first text, makes GetText
return the distinguishable ErrInvalidResponse error value of the respective
adapter package, never an empty-string success. -/
theorem empty_reply_invalid_response :
    (∀ resp : OAIResponse,
        (resp.choices = [] ∨ ∃ c rest, resp.choices = c :: rest ∧ c.message.content = "") →
        openaiChoicesContent resp = .error (.errInvalidResponse ("openai")))
      ∧ ∀ resp : AnthResponse,
          (resp.content = [] ∨ ∃ c rest, resp.content = c :: rest ∧ c.text = "") →
          anthropicContentText resp = .error (.errInvalidResponse ("anthropic")) := by
  constructor
  · intro resp h
    rcases h with h | ⟨c, rest, hc, he⟩
    · simp [openaiChoicesContent, h]
    · simp [openaiChoicesContent, hc, he]
  · intro resp h
    rcases h with h | ⟨c, rest, hc, he⟩
    · simp [anthropicContentText, h]
    · simp [anthropicContentText, hc, he]

/-- Witness for C8: responses with empty choice and content lists. -/
theorem empty_reply_invalid_response_witness :
    openaiChoicesContent
        { id := "", object := "", created := 0, choices := [], error := none }
      = .error (.errInvalidResponse ("openai"))
      ∧ anthropicContentText
          { id := "", type := "", role := "", content := [], model := "",
            stopReason := "", error := none }
        = .error (.errInvalidResponse ("anthropic")) := by
  have h := empty_reply_invalid_response
  exact ⟨h.1 _ (Or.inl rfl), h.2 _ (Or.inl rfl)⟩

/-- The shape of the anthropic convertMessages fold from any accumulator: the
converted messages are the non-system inputs, in order, with mapped roles, and
the system accumulator ends at the content of the last system-role input. -/
theorem convertMessages_foldl (msgs : List Message) (acc : List AnthMessage) (sys : String) :
    msgs.foldl convertMessagesStep (acc, sys)
      = (acc ++ (msgs.filter (fun m => !(m.role == MessageRole.system))).map
            (fun m => { role := anthRole m.role, content := m.content }),
         ((msgs.filter (fun m => m.role == MessageRole.system)).map
            (fun m => m.content)).getLastD sys) := by
  induction msgs generalizing acc sys with
  | nil => simp
  | cons m rest ih =>
    rw [List.foldl_cons]
    by_cases h : m.role = MessageRole.system
    · have hstep : convertMessagesStep (acc, sys) m = (acc, m.content) := by
        simp [convertMessagesStep, h]
      have hf1 : List.filter (fun x => !(x.role == MessageRole.system)) (m :: rest)
          = List.filter (fun x => !(x.role == MessageRole.system)) rest := by
        simp [List.filter_cons, h]
      have hf2 : List.filter (fun x => x.role == MessageRole.system) (m :: rest)
          = m :: List.filter (fun x => x.role == MessageRole.system) rest := by
        simp [List.filter_cons, h]
      rw [hstep, ih, hf1, hf2, List.map_cons, List.getLastD_cons]
    · have hstep : convertMessagesStep (acc, sys) m
          = (acc ++ [{ role := anthRole m.role, content := m.content }], sys) := by
        simp [convertMessagesStep, h]
      have hf1 : List.filter (fun x => !(x.role == MessageRole.system)) (m :: rest)
          = m :: List.filter (fun x => !(x.role == MessageRole.system)) rest := by
        simp [List.filter_cons, h]
      have hf2 : List.filter (fun x => x.role == MessageRole.system) (m :: rest)
          = List.filter (fun x => x.role == MessageRole.system) rest := by
        simp [List.filter_cons, h]
      rw [hstep, ih, hf1, hf2, List.map_cons, List.append_assoc]
      rfl

/-- A message sequence with two system-role messages and a user message. -/
def c9msgs : List Message :=
  [{ role := .system, content := ("a"), toolCalls := [], toolCallID := "" },
   { role := .system, content := ("b"), toolCalls := [], toolCallID := "" },
   { role := .user, content := ("u"), toolCalls := [], toolCallID := "" }]

/-- A config carrying c9msgs. -/
def c9config : Config :=
  { provider := ("anthropic"), model := ("m"), messages := c9msgs,
    maxTokens := 1000, temperature := 7/10, tools := [] }

/-- C9 counterexample: the sequence contains a system-role message with
content a, yet the serialized request does not carry that content in the
top-level system parameter: a later system-role message overwrote it, so the
content of the first one is carried nowhere. -/
theorem anthropic_system_hoist_counterexample :
    c9config.messages.head?
        = some { role := MessageRole.system, content := ("a"),
                 toolCalls := [], toolCallID := "" }
      ∧ (anthropicBuildRequest c9config).system ≠ ("a")
      ∧ (anthropicBuildRequest c9config).system = ("b") := by
  refine ⟨rfl, ?_, rfl⟩
  have h : (anthropicBuildRequest c9config).system = ("b") := rfl
  rw [h]
  decide

/-- C9 amended: the anthropic request carries the content of the last
system-role message (empty when there is none) in the top-level system
parameter; the serialized messages are exactly the non-system messages in
their original order with their contents kept and roles mapped; and no
serialized message has role system. -/
theorem anthropic_hoists_last_system (cfg : Config) :
    (anthropicBuildRequest cfg).system
        = ((cfg.messages.filter (fun m => m.role == MessageRole.system)).map
            (fun m => m.content)).getLastD ("")
      ∧ (anthropicBuildRequest cfg).messages
        = (cfg.messages.filter (fun m => !(m.role == MessageRole.system))).map
            (fun m => { role := anthRole m.role, content := m.content })
      ∧ ∀ am ∈ (anthropicBuildRequest cfg).messages, am.role ≠ ("system") := by
  have h := convertMessages_foldl cfg.messages [] ""
  refine ⟨?_, ?_, ?_⟩
  · simp [anthropicBuildRequest, convertMessages, h]
  · simp [anthropicBuildRequest, convertMessages, h]
  · intro am ham
    simp only [anthropicBuildRequest, convertMessages, h, List.nil_append] at ham
    rcases List.mem_map.mp ham with ⟨m, hm, rfl⟩
    have hns : ¬ m.role = MessageRole.system := by
      have hf := List.of_mem_filter hm
      simpa using hf
    cases hr : m.role <;> simp_all [anthRole, roleString]

/-- Witness for C9 amended: on the two-system-message sequence the request
carries the last system content, and the sole serialized message is the user
one, whose role is not system. -/
theorem anthropic_hoists_last_system_witness :
    (anthropicBuildRequest c9config).system = ("b")
      ∧ (anthropicBuildRequest c9config).messages
        = [{ role := ("user"), content := ("u") }]
      ∧ (AnthMessage.mk ("user") ("u")).role ≠ ("system") := by
  have h := anthropic_hoists_last_system c9config
  refine ⟨?_, ?_, ?_⟩
  · rw [h.1]
    decide
  · rw [h.2.1]
    decide
  · exact h.2.2 (AnthMessage.mk ("user") ("u")) (by rw [h.2.1]; decide)

/-- The hasSystemMsg scan finds a system-role message exactly when one is in
the list. -/
theorem hasSystemMsg_iff (msgs : List Message) :
    hasSystemMsg msgs = true ↔ ∃ m ∈ msgs, m.role = MessageRole.system := by
  induction msgs with
  | nil => simp [hasSystemMsg]
  | cons m rest ih =>
    by_cases h : m.role = MessageRole.system
    · simp [hasSystemMsg, h]
    · simp [hasSystemMsg, h, ih]

/-- C10: the openai GetObject passes the configured messages to the text
capability unchanged when they already contain a system-role message; when
they contain none, exactly the JSON-instruction system message is prepended at
position 0 and the rest of the sequence is unchanged. -/
theorem openai_getobject_system_message (targetType : String) (msgs : List Message) :
    ((∃ m ∈ msgs, m.role = MessageRole.system) →
        openaiObjectMessages targetType msgs = msgs)
      ∧ ((¬ ∃ m ∈ msgs, m.role = MessageRole.system) →
          openaiObjectMessages targetType msgs = jsonSystemMessage targetType :: msgs
            ∧ (jsonSystemMessage targetType).role = MessageRole.system
            ∧ (jsonSystemMessage targetType).content = jsonSystemContent targetType) := by
  constructor
  · intro h
    simp [openaiObjectMessages, (hasSystemMsg_iff msgs).mpr h]
  · intro h
    have hb : hasSystemMsg msgs = false := by
      rcases Bool.eq_false_or_eq_true (hasSystemMsg msgs) with hb | hb
      · exact absurd ((hasSystemMsg_iff msgs).mp hb) h
      · exact hb
    refine ⟨?_, rfl, rfl⟩
    simp [openaiObjectMessages, hb]

/-- Witness for C10: one sequence with a system message is forwarded
unchanged, one without gets the instruction message prepended. -/
theorem openai_getobject_system_message_witness :
    openaiObjectMessages ("*main.TestResponse")
        [{ role := MessageRole.system, content := ("s"), toolCalls := [], toolCallID := "" }]
      = [{ role := MessageRole.system, content := ("s"), toolCalls := [], toolCallID := "" }]
      ∧ openaiObjectMessages ("*main.TestResponse")
          [{ role := MessageRole.user, content := ("u"), toolCalls := [], toolCallID := "" }]
        = jsonSystemMessage ("*main.TestResponse")
            :: [{ role := MessageRole.user, content := ("u"), toolCalls := [], toolCallID := "" }] := by
  have h1 := openai_getobject_system_message ("*main.TestResponse")
    [{ role := MessageRole.system, content := ("s"), toolCalls := [], toolCallID := "" }]
  have h2 := openai_getobject_system_message ("*main.TestResponse")
    [{ role := MessageRole.user, content := ("u"), toolCalls := [], toolCallID := "" }]
  exact ⟨h1.1 (by decide), (h2.2 (by decide)).1⟩
